import Mathlib

/-!
Verification development for the DeskSense activity pipeline.

The definitions below are a shallow embedding of the TypeScript sources:
`src/lib/screenpipe.ts` (capture adapter, deduplicator, Nebius insight
requester, insight store reads) and the `screen-activity` route handler
(rate limiter, response envelope).  JavaScript strings are modelled by
Lean `String`; JS string primitives (`toLowerCase`, `trim`, `includes`,
`split` on a single space, `.length`) are modelled over the character
list so that every definition evaluates inside the kernel.  All code is
assumed to operate on ASCII-range text, where these models agree with
the JS semantics.
-/

/-- Model of JS `s.toLowerCase()` (ASCII range). -/
def jsToLower (s : String) : String :=
  String.mk (s.data.map Char.toLower)

/-- Model of JS `s.trim()`: strip whitespace from both ends. -/
def jsTrim (s : String) : String :=
  String.mk (((s.data.dropWhile Char.isWhitespace).reverse.dropWhile
    Char.isWhitespace).reverse)

/-- Model of JS `hay.includes(needle)`: substring occurrence. -/
def strIncludes (hay needle : String) : Bool :=
  hay.data.tails.any (fun t => needle.data.isPrefixOf t)

/-- Helper for `jsSplitWords`: split a character list at every separator. -/
def splitOnCharAux (sep : Char) : List Char → List Char → List (List Char)
  | [], acc => [acc.reverse]
  | c :: cs, acc =>
    if c = sep then acc.reverse :: splitOnCharAux sep cs []
    else splitOnCharAux sep cs (c :: acc)

/-- Model of JS `s.split(' ')`: split on each single space character. -/
def jsSplitWords (s : String) : List String :=
  (splitOnCharAux ' ' s.data []).map String.mk

/-- Model of JS truthiness for an optional string field:
`undefined` and the empty string are falsy. -/
def strFieldTruthy (o : Option String) : Prop :=
  o.getD "" ≠ ""

instance (o : Option String) : Decidable (strFieldTruthy o) := by
  unfold strFieldTruthy; infer_instance

/-- The `content` payload of a captured activity item
(fields of `ScreenActivityItem.content` in `src/lib/screenpipe.ts`). -/
structure ActivityContent where
  text : Option String
  timestamp : String
  app_name : Option String
  window_name : Option String
  transcription : Option String
  speaker_id : Option Nat
deriving DecidableEq, Repr

/-- `ScreenActivityItem` from `src/lib/screenpipe.ts`. -/
structure ScreenActivityItem where
  type : String
  content : ActivityContent
deriving DecidableEq, Repr

/-- `MOCK_SCREEN_DATA` from `src/lib/screenpipe.ts`: the fixed two-item
synthetic sample (one OCR item, one Audio item).  The timestamp is
`new Date().toISOString()` in the source, modelled here as the
parameter `now`. -/
def MOCK_SCREEN_DATA (now : String) : List ScreenActivityItem :=
  [ { type := "OCR",
      content :=
        { text := some "Demo text from a screen capture",
          timestamp := now,
          app_name := some "DemoApp",
          window_name := some "MainWindow",
          transcription := none,
          speaker_id := none } },
    { type := "Audio",
      content :=
        { text := none,
          timestamp := now,
          app_name := none,
          window_name := none,
          transcription := some "This is a sample transcript from an audio capture",
          speaker_id := some 1 } } ]

/-- Text extraction in `deduplicateScreenData`: OCR items use
`content.text`, Audio items use `content.transcription`, any other item
with a truthy `content.text` uses it, otherwise the empty string. -/
def extractTextContent (item : ScreenActivityItem) : String :=
  if item.type = "OCR" ∧ strFieldTruthy item.content.text then
    item.content.text.getD ""
  else if item.type = "Audio" ∧ strFieldTruthy item.content.transcription then
    item.content.transcription.getD ""
  else if strFieldTruthy item.content.text then
    item.content.text.getD ""
  else ""

/-- `textContent.toLowerCase().trim()` in `deduplicateScreenData`. -/
def normalizedText (item : ScreenActivityItem) : String :=
  jsTrim (jsToLower (extractTextContent item))

/-- `simpleSimilarityCheck` from `src/lib/screenpipe.ts`, verbatim:
against a pair of strings, require exact match when the shorter has
length below 20, otherwise full containment or a shared word longer
than 4 characters. -/
def simpleSimilarityCheck (a b : String) : Bool :=
  let shorterLength := min a.length b.length
  let longerString := if a.length > b.length then a else b
  let shorterString := if a.length > b.length then b else a
  if shorterLength < 20 then a == b
  else
    strIncludes longerString shorterString ||
      ((jsSplitWords shorterString).filter (fun word => word.length > 4)).any
        (fun word => strIncludes longerString word)

/-- Loop body of `deduplicateScreenData`: `seenContent` is the JS `Set`
of previously accepted normalized strings, in insertion order. -/
def deduplicateScreenDataAux :
    List ScreenActivityItem → List String → List ScreenActivityItem
  | [], _ => []
  | item :: rest, seenContent =>
    let simplifiedContent := normalizedText item
    if simplifiedContent.length < 10 ∨ simplifiedContent ∈ seenContent then
      deduplicateScreenDataAux rest seenContent
    else if seenContent.any (fun existing =>
        simpleSimilarityCheck existing simplifiedContent) then
      deduplicateScreenDataAux rest seenContent
    else
      item :: deduplicateScreenDataAux rest (seenContent ++ [simplifiedContent])

/-- `deduplicateScreenData` from `src/lib/screenpipe.ts`. -/
def deduplicateScreenData (screenData : List ScreenActivityItem) :
    List ScreenActivityItem :=
  deduplicateScreenDataAux screenData []

/-- Modelled from the spec and claim wording for the similarity heuristic,
read literally: a pair is a duplicate when one of the two strings has
length at least 20 and one contains the other in full; otherwise, when
any word longer than 4 characters from the shorter string appears in the
longer string; otherwise it is not.  (This is the claimed behaviour, to
be compared against `simpleSimilarityCheck`.) -/
def claimSimilarityCheck (a b : String) : Bool :=
  let longerString := if a.length > b.length then a else b
  let shorterString := if a.length > b.length then b else a
  if (20 ≤ a.length ∨ 20 ≤ b.length) ∧ (strIncludes a b ∨ strIncludes b a) then
    true
  else
    ((jsSplitWords shorterString).filter (fun word => word.length > 4)).any
      (fun word => strIncludes longerString word)

/-- The similarity heuristic as the code actually gates it, for a pair of
distinct strings: both lengths must be at least 20 (equivalently the
shorter length is at least 20) before either the containment or the
shared-word test applies; distinct pairs whose shorter member is below
20 characters are never duplicates. -/
def amendedSimilarityCheck (a b : String) : Bool :=
  let shorterLength := min a.length b.length
  let longerString := if a.length > b.length then a else b
  let shorterString := if a.length > b.length then b else a
  if shorterLength < 20 then false
  else
    strIncludes longerString shorterString ||
      ((jsSplitWords shorterString).filter (fun word => word.length > 4)).any
        (fun word => strIncludes longerString word)

/-- Result of racing `pipe.queryScreenpipe` against the 15-second timer
in `queryRecentActivity`: the timer wins (`timeout`), the query rejects
(`rejected`), the query resolves without a `data` field
(`resolvedNoData`), or the query resolves with a data list. -/
inductive QueryOutcome where
  | timeout
  | rejected (msg : String)
  | resolvedNoData
  | resolved (data : List ScreenActivityItem)
deriving DecidableEq, Repr

/-- `queryRecentActivity` from `src/lib/screenpipe.ts`, as a function of
the race outcome.  Every error path is caught (the inner catch handles
browser-API errors by resolving `null`, the outer catches rethrown and
setup errors) and yields `MOCK_SCREEN_DATA`; a resolved result with a
missing or empty data list also yields `MOCK_SCREEN_DATA`; otherwise
the data is deduplicated.  Totality of this function models that the
source function never throws. -/
def queryRecentActivity (now : String) (outcome : QueryOutcome) :
    List ScreenActivityItem :=
  match outcome with
  | .timeout => MOCK_SCREEN_DATA now
  | .rejected _ => MOCK_SCREEN_DATA now
  | .resolvedNoData => MOCK_SCREEN_DATA now
  | .resolved data =>
    if data.length = 0 then MOCK_SCREEN_DATA now
    else deduplicateScreenData data

/-- The outcomes of the capture race that the fallback clause covers:
timeout, rejection, or a resolved-but-missing/empty data list. -/
def queryFailsOrEmpty : QueryOutcome → Prop
  | .timeout => True
  | .rejected _ => True
  | .resolvedNoData => True
  | .resolved data => data = []

/-- Success envelope of the `GET /api/screen-activity` route handler
(`src/app/api/screen-activity/route.ts`). -/
structure ScreenActivityGETResponse where
  success : Bool
  data : List ScreenActivityItem
  count : Nat
  source : String
deriving DecidableEq, Repr

/-- Body of the success branch of the GET handler: the `source` field is
the string "mock" when at most 2 items are returned, otherwise "live". -/
def screenActivityGET (activityData : List ScreenActivityItem) :
    ScreenActivityGETResponse :=
  { success := true,
    data := activityData,
    count := activityData.length,
    source := if activityData.length ≤ 2 then "mock" else "live" }

/-- One entry of the in-memory `ipRequests` map of the route handler:
request count and window reset time (ms since epoch). -/
structure RateEntry where
  count : Nat
  resetTime : Nat
deriving DecidableEq, Repr

/-- `RATE_LIMIT.windowMs` (60 seconds, in milliseconds). -/
def RATE_LIMIT_windowMs : Nat := 60000

/-- `RATE_LIMIT.maxRequests` (10 requests per window). -/
def RATE_LIMIT_maxRequests : Nat := 10

/-- `checkRateLimit` from the screen-activity route handler: the map is
modelled as a function from client address to optional entry, and the
call returns the accept/reject decision together with the updated map.
An unknown address, or one whose window has passed, starts a fresh
window with count 1; otherwise the count is incremented (even past the
cap) and the request is rejected exactly when the new count exceeds the
cap. -/
def checkRateLimit (ipRequests : String → Option RateEntry) (ip : String)
    (now : Nat) : Bool × (String → Option RateEntry) :=
  match ipRequests ip with
  | none =>
    (true, fun k =>
      if k = ip then some ⟨1, now + RATE_LIMIT_windowMs⟩ else ipRequests k)
  | some requestData =>
    if now > requestData.resetTime then
      (true, fun k =>
        if k = ip then some ⟨1, now + RATE_LIMIT_windowMs⟩ else ipRequests k)
    else
      let newCount := requestData.count + 1
      if newCount > RATE_LIMIT_maxRequests then
        (false, fun k =>
          if k = ip then some ⟨newCount, requestData.resetTime⟩
          else ipRequests k)
      else
        (true, fun k =>
          if k = ip then some ⟨newCount, requestData.resetTime⟩
          else ipRequests k)

/-- A sequence of `checkRateLimit` calls for one client address, at the
given sequence of clock readings, threading the map through. -/
def runRateLimit (ipRequests : String → Option RateEntry) (ip : String) :
    List Nat → List Bool × (String → Option RateEntry)
  | [] => ([], ipRequests)
  | t :: ts =>
    let step := checkRateLimit ipRequests ip t
    let rest := runRateLimit step.2 ip ts
    (step.1 :: rest.1, rest.2)

/-- The apostrophe character, built without a quote literal. -/
def apos : String := String.mk [Char.ofNat 39]

/-- `MOCK_INSIGHTS.productivity` from the insight requester module. -/
def mockProductivityInsight : String :=
  "You" ++ apos ++ "ve been using multiple applications frequently. " ++
    "Consider using keyboard shortcuts to switch between them more efficiently."

/-- `MOCK_INSIGHTS.automation`. -/
def mockAutomationInsight : String :=
  "I noticed you copy and paste text frequently. " ++
    "Consider using a clipboard manager to store multiple items."

/-- `MOCK_INSIGHTS.recommendation`. -/
def mockRecommendationInsight : String :=
  "Based on your recent activity, you might want to take a short break " ++
    "every 30 minutes to reduce eye strain."

/-- `MOCK_INSIGHTS.reminder`. -/
def mockReminderInsight : String :=
  "Don" ++ apos ++ "t forget to save your work periodically. " ++
    "I noticed you haven" ++ apos ++ "t saved in the last 15 minutes."

/-- The `MOCK_INSIGHTS` object as an ordered key/value list
(`Object.keys` order is the declaration order). -/
def MOCK_INSIGHTS_pairs : List (String × String) :=
  [ ("productivity", mockProductivityInsight),
    ("automation", mockAutomationInsight),
    ("recommendation", mockRecommendationInsight),
    ("reminder", mockReminderInsight) ]

/-- `MOCK_INSIGHTS[key]` lookup; `none` models `key in MOCK_INSIGHTS`
being false. -/
def MOCK_INSIGHTS_lookup (key : String) : Option String :=
  MOCK_INSIGHTS_pairs.lookup key

/-- `MAX_RETRIES` in `sendToNebiusAI`. -/
def MAX_RETRIES : Nat := 3

/-- What the environment does with one axios attempt in
`sendToNebiusAI`: success with a body, an HTTP error response with a
status code (`apiError.response` present), a network-level failure
(`apiError.request` present, no response), or a request setup error. -/
inductive ApiAttemptResult where
  | success (text : String)
  | httpError (status : Nat)
  | networkError
  | setupError (msg : String)
deriving DecidableEq, Repr

/-- The `errorType` string that `sendToNebiusAI` assigns to an HTTP
error response with the given status code. -/
def httpErrorType (status : Nat) : String :=
  if status = 401 then "authentication_error"
  else if status = 429 then "rate_limit_exceeded"
  else if status = 400 then "invalid_request"
  else if status ≥ 500 then "server_error"
  else "api_error"

/-- The `NebiusAIResponse` value returned by `sendToNebiusAI`, with the
metadata fields the claims inspect: `metadata.source` (the string
"mock" on every fallback path), `metadata.errorType`,
`metadata.retryAttempts`, and `metadata.reason` (set to
"missing_api_config" when the API configuration is absent). -/
structure NebiusAIResponse where
  result : String
  metaSource : Option String
  metaErrorType : Option String
  metaRetryAttempts : Option Nat
  metaReason : Option String
deriving DecidableEq, Repr

/-- The common fallback value of the error branches in `attemptRequest`
that perform no further retry: the mock recommendation with the error
type and the retry count reached so far in the metadata. -/
def attemptResponseNoRetry (retryCount : Nat) (errorType : String) :
    NebiusAIResponse × List Nat :=
  ({ result := mockRecommendationInsight, metaSource := some "mock",
     metaErrorType := some errorType,
     metaRetryAttempts := some retryCount, metaReason := none }, [])

/-- `attemptRequest` inside `sendToNebiusAI`.  The environment `env`
gives the result of the axios call on each attempt (attempt `i` is the
one made when the closure variable `retryCount` equals `i`).  The
argument `remaining` equals `MAX_RETRIES - retryCount` throughout, so
`remaining = 0` is exactly the source condition
`retryCount < MAX_RETRIES` failing; the non-network branches behave
identically whether or not retries remain, as in the source, which
never consults the retry budget for them.  The pair's second component
lists the backoff delays (in ms) slept before each retry,
`1000 * 2 ^ (newRetryCount - 1)` as in the source. -/
def attemptRequest (env : Nat → ApiAttemptResult) :
    Nat → Nat → NebiusAIResponse × List Nat
  | retryCount, 0 =>
    match env retryCount with
    | .success text =>
      ({ result := text, metaSource := none, metaErrorType := none,
         metaRetryAttempts := none, metaReason := none }, [])
    | .httpError status =>
      attemptResponseNoRetry retryCount (httpErrorType status)
    | .networkError =>
      attemptResponseNoRetry retryCount "network_error"
    | .setupError _ =>
      attemptResponseNoRetry retryCount "request_setup_error"
  | retryCount, remaining' + 1 =>
    match env retryCount with
    | .success text =>
      ({ result := text, metaSource := none, metaErrorType := none,
         metaRetryAttempts := none, metaReason := none }, [])
    | .httpError status =>
      attemptResponseNoRetry retryCount (httpErrorType status)
    | .networkError =>
      let newRetryCount := retryCount + 1
      let delay := 1000 * 2 ^ (newRetryCount - 1)
      let rest := attemptRequest env newRetryCount remaining'
      (rest.1, delay :: rest.2)
    | .setupError _ =>
      attemptResponseNoRetry retryCount "request_setup_error"

/-- `sendToNebiusAI`: when the API key/endpoint configuration is absent
the mock recommendation is returned at once; otherwise the attempt loop
runs starting at `retryCount = 0` with `MAX_RETRIES` retries available.
Returns the response together with the list of backoff delays slept. -/
def sendToNebiusAI (hasConfig : Bool) (env : Nat → ApiAttemptResult) :
    NebiusAIResponse × List Nat :=
  if hasConfig then attemptRequest env 0 MAX_RETRIES
  else
    ({ result := mockRecommendationInsight, metaSource := some "mock",
       metaErrorType := none, metaRetryAttempts := none,
       metaReason := some "missing_api_config" }, [])

/-- The `AIInsight` document written by `saveInsight` (fields the claims
inspect; `metadata.activityCount` is the related-activity count). -/
structure AIInsight where
  insight : String
  insightType : String
  priority : Nat
  status : String
  activityCount : Nat
deriving DecidableEq, Repr

/-- `saveInsight`: builds the new document with status "new"; the
`priority` parameter defaults to 0 at the only call site. -/
def saveInsight (insight : String) (relatedActivities : List ScreenActivityItem)
    (insightType : String) (priority : Nat) : AIInsight :=
  { insight := insight, insightType := insightType, priority := priority,
    status := "new", activityCount := relatedActivities.length }

/-- `generateInsightsFromActivity`: sends the prompt, substitutes the
category-specific canned string when the response metadata marks a mock
source and the category is a known key, then tries to persist the
insight.  `saveSucceeds` models whether `saveInsight` resolves or
throws; a throw is caught and swallowed, so the text result is returned
either way.  The pair is (returned text, persisted document if any). -/
def generateInsightsFromActivity (hasConfig : Bool)
    (env : Nat → ApiAttemptResult) (saveSucceeds : Bool)
    (activityData : List ScreenActivityItem) (insightType : String) :
    String × Option AIInsight :=
  let aiResponse := (sendToNebiusAI hasConfig env).1
  let result :=
    if aiResponse.metaSource = some "mock" ∧
        (MOCK_INSIGHTS_lookup insightType).isSome then
      (MOCK_INSIGHTS_lookup insightType).getD aiResponse.result
    else aiResponse.result
  let saved :=
    if saveSucceeds then some (saveInsight result activityData insightType 0)
    else none
  (result, saved)

/-- An `AIInsight` document as stored in the database, for the read
path `getInsights` (`createdAt` in ms since epoch, used for the
descending sort). -/
structure InsightRecord where
  idStr : String
  insight : String
  insightType : String
  status : String
  priority : Nat
  createdAt : Nat
deriving DecidableEq, Repr

/-- The Mongo query object built by `getInsights`: a document matches
when each provided filter field is equal. -/
def insightQueryMatches (statusFilter typeFilter : Option String)
    (rec : InsightRecord) : Bool :=
  (match statusFilter with
   | some s => rec.status == s
   | none => true) &&
  (match typeFilter with
   | some t => rec.insightType == t
   | none => true)

/-- Insert into a list kept sorted by `createdAt` descending. -/
def insertByCreatedAtDesc (rec : InsightRecord) :
    List InsightRecord → List InsightRecord
  | [] => [rec]
  | r :: rs =>
    if r.createdAt ≤ rec.createdAt then rec :: r :: rs
    else r :: insertByCreatedAtDesc rec rs

/-- `sort({ createdAt: -1 })`: sort the matches newest first. -/
def sortByCreatedAtDesc : List InsightRecord → List InsightRecord
  | [] => []
  | r :: rs => insertByCreatedAtDesc r (sortByCreatedAtDesc rs)

/-- The database read in `getInsights`:
`AIInsight.find(query).sort({createdAt:-1}).skip(offset).limit(limit)`. -/
def dbInsightsQuery (store : List InsightRecord)
    (statusFilter typeFilter : Option String) (limit offset : Nat) :
    List InsightRecord :=
  (((sortByCreatedAtDesc (store.filter
      (insightQueryMatches statusFilter typeFilter)))).drop offset).take limit

/-- A record as returned by `getInsights` to its caller: either a
database document or one of the canned mock records.  `metaSource` is
`some "mock"` exactly on the canned records. -/
structure InsightView where
  idStr : String
  insight : String
  insightType : String
  status : String
  priority : Nat
  createdAt : String
  metaSource : Option String
deriving DecidableEq, Repr

/-- View of a database document (identity on the shared fields). -/
def dbRecordToView (rec : InsightRecord) : InsightView :=
  { idStr := rec.idStr, insight := rec.insight,
    insightType := rec.insightType, status := rec.status,
    priority := rec.priority, createdAt := toString rec.createdAt,
    metaSource := none }

/-- The canned records built in the empty-store branch of `getInsights`:
`Object.keys(MOCK_INSIGHTS).map((type, index) => ...)`, with id
`mock-<index>`, status "new", `createdAt` the current time and priority
`Math.floor(Math.random() * 3)` (modelled by `randPriority`). -/
def mockInsightsDataAux (now : String) (randPriority : Nat → Nat) :
    Nat → List (String × String) → List InsightView
  | _, [] => []
  | index, pair :: rest =>
    { idStr := "mock-" ++ toString index, insight := pair.2,
      insightType := pair.1, status := "new",
      priority := randPriority index, createdAt := now,
      metaSource := some "mock" } ::
      mockInsightsDataAux now randPriority (index + 1) rest

/-- The full canned list, in `MOCK_INSIGHTS` key order. -/
def mockInsightsData (now : String) (randPriority : Nat → Nat) :
    List InsightView :=
  mockInsightsDataAux now randPriority 0 MOCK_INSIGHTS_pairs

/-- `getInsights` from the insight requester module: run the database
query; when it matches nothing, return the canned records filtered by
the same status/category options and truncated to `limit`
(`.slice(0, limit)`); otherwise return the documents found. -/
def getInsights (store : List InsightRecord)
    (statusFilter typeFilter : Option String) (limit offset : Nat)
    (now : String) (randPriority : Nat → Nat) : List InsightView :=
  let insights := dbInsightsQuery store statusFilter typeFilter limit offset
  if insights.length = 0 then
    ((mockInsightsData now randPriority).filter (fun insight =>
      (match statusFilter with
       | some s => insight.status == s
       | none => true) &&
      (match typeFilter with
       | some t => insight.insightType == t
       | none => true))).take limit
  else insights.map dbRecordToView

section DedupeLemmas

theorem deduplicateScreenDataAux_sublist :
    ∀ (xs : List ScreenActivityItem) (seen : List String),
      (deduplicateScreenDataAux xs seen).Sublist xs := by
  intro xs
  induction xs with
  | nil => intro seen; simp [deduplicateScreenDataAux]
  | cons item rest ih =>
    intro seen
    simp only [deduplicateScreenDataAux]
    split
    · exact (ih seen).cons item
    · split
      · exact (ih seen).cons item
      · exact (ih _).cons₂ item

theorem deduplicateScreenDataAux_not_seen :
    ∀ (xs : List ScreenActivityItem) (seen : List String)
      (item : ScreenActivityItem),
      item ∈ deduplicateScreenDataAux xs seen → normalizedText item ∉ seen := by
  intro xs
  induction xs with
  | nil => intro seen item h; simp [deduplicateScreenDataAux] at h
  | cons hd rest ih =>
    intro seen item h
    simp only [deduplicateScreenDataAux] at h
    split at h
    · exact ih seen item h
    · split at h
      · exact ih seen item h
      · rcases List.mem_cons.mp h with h1 | h1
        · subst h1
          rename_i hcond _
          push_neg at hcond
          exact hcond.2
        · have hnot := ih _ item h1
          intro hmem
          exact hnot (List.mem_append.mpr (Or.inl hmem))

theorem deduplicateScreenDataAux_pairwise :
    ∀ (xs : List ScreenActivityItem) (seen : List String),
      (deduplicateScreenDataAux xs seen).Pairwise
        (fun i j => normalizedText i ≠ normalizedText j) := by
  intro xs
  induction xs with
  | nil => intro seen; simp [deduplicateScreenDataAux]
  | cons hd rest ih =>
    intro seen
    simp only [deduplicateScreenDataAux]
    split
    · exact ih seen
    · split
      · exact ih seen
      · refine List.Pairwise.cons ?_ (ih _)
        intro j hj heq
        have hnot := deduplicateScreenDataAux_not_seen rest _ j hj
        exact hnot (List.mem_append.mpr (Or.inr (by simp [heq])))

theorem deduplicateScreenDataAux_ge_ten :
    ∀ (xs : List ScreenActivityItem) (seen : List String)
      (item : ScreenActivityItem),
      item ∈ deduplicateScreenDataAux xs seen →
      10 ≤ (normalizedText item).length := by
  intro xs
  induction xs with
  | nil => intro seen item h; simp [deduplicateScreenDataAux] at h
  | cons hd rest ih =>
    intro seen item h
    simp only [deduplicateScreenDataAux] at h
    split at h
    · exact ih seen item h
    · split at h
      · exact ih seen item h
      · rcases List.mem_cons.mp h with h1 | h1
        · subst h1
          rename_i hcond _
          push_neg at hcond
          omega
        · exact ih _ item h1

end DedupeLemmas

/-- Claim C1: for every input sequence, the output of
`deduplicateScreenData` is a subsequence of the input (hence preserves
the original relative order), and no two output items have equal
normalized (lowercased, trimmed) primary text. -/
theorem deduplicateScreenData_sublist_pairwise
    (xs : List ScreenActivityItem) :
    (deduplicateScreenData xs).Sublist xs ∧
    (deduplicateScreenData xs).Pairwise
      (fun i j => normalizedText i ≠ normalizedText j) :=
  ⟨deduplicateScreenDataAux_sublist xs [],
   deduplicateScreenDataAux_pairwise xs []⟩

/-- An OCR capture whose text normalizes to "hello world stuff". -/
def helloStuffItem : ScreenActivityItem :=
  { type := "OCR",
    content :=
      { text := some "Hello World Stuff", timestamp := "", app_name := none,
        window_name := none, transcription := none, speaker_id := none } }

/-- An OCR capture whose text normalizes to
"totally different words with hello inside". -/
def helloInsideItem : ScreenActivityItem :=
  { type := "OCR",
    content :=
      { text := some "Totally different words with hello inside",
        timestamp := "", app_name := none, window_name := none,
        transcription := none, speaker_id := none } }

/-- Claim C2, counterexample: the claimed heuristic (`claimSimilarityCheck`,
literally one length at least 20, containment, else the shared-word
test unconditionally) disagrees with the code: on the distinct
normalized pair below, whose shorter member has only 17 characters, the
code requires exact equality and judges them not duplicates, while the
claimed heuristic finds the shared word "hello" and judges them
duplicates.  Accordingly, the deduplicator keeps both corresponding
items, whereas under the claimed heuristic the second would have been
dropped as a duplicate. -/
theorem simpleSimilarityCheck_claim_counterexample :
    ("hello world stuff" : String) ≠
      "totally different words with hello inside" ∧
    normalizedText helloStuffItem = "hello world stuff" ∧
    normalizedText helloInsideItem =
      "totally different words with hello inside" ∧
    simpleSimilarityCheck "hello world stuff"
      "totally different words with hello inside" = false ∧
    claimSimilarityCheck "hello world stuff"
      "totally different words with hello inside" = true ∧
    deduplicateScreenData [helloStuffItem, helloInsideItem] =
      [helloStuffItem, helloInsideItem] := by
  refine ⟨by decide, by decide, by decide, by decide, by decide, by decide⟩

/-- Claim C2, amended: for every pair of distinct strings, the code
judges the pair a duplicate exactly when the shorter string has length
at least 20 and either one string contains the other in full or some
word longer than 4 characters from the shorter string appears in the
longer string; distinct pairs whose shorter member is below 20
characters are never duplicates. -/
theorem simpleSimilarityCheck_eq_amended (a b : String) (h : a ≠ b) :
    simpleSimilarityCheck a b = amendedSimilarityCheck a b := by
  simp only [simpleSimilarityCheck, amendedSimilarityCheck]
  split
  · exact beq_eq_false_iff_ne.mpr h
  · rfl

theorem simpleSimilarityCheck_eq_amended_witness :
    ("alpha" : String) ≠ "beta" ∧
    simpleSimilarityCheck "alpha" "beta" =
      amendedSimilarityCheck "alpha" "beta" :=
  ⟨by decide, simpleSimilarityCheck_eq_amended "alpha" "beta" (by decide)⟩

/-- Claim C4: whenever the capture race times out, rejects, or resolves
with a missing or empty data list, `queryRecentActivity` returns the
fixed two-item synthetic sample, whose items are one OCR item and one
Audio item.  The function is total, modelling that the source never
throws. -/
theorem queryRecentActivity_fallback (now : String) (o : QueryOutcome)
    (h : queryFailsOrEmpty o) :
    queryRecentActivity now o = MOCK_SCREEN_DATA now ∧
    (MOCK_SCREEN_DATA now).length = 2 ∧
    (MOCK_SCREEN_DATA now).map ScreenActivityItem.type = ["OCR", "Audio"] := by
  refine ⟨?_, rfl, rfl⟩
  cases o with
  | timeout => rfl
  | rejected msg => rfl
  | resolvedNoData => rfl
  | resolved data =>
    have hdata : data = [] := h
    subst hdata
    rfl

theorem queryRecentActivity_fallback_witness :
    queryFailsOrEmpty QueryOutcome.timeout ∧
    (queryRecentActivity "" QueryOutcome.timeout = MOCK_SCREEN_DATA "" ∧
     (MOCK_SCREEN_DATA "").length = 2 ∧
     (MOCK_SCREEN_DATA "").map ScreenActivityItem.type = ["OCR", "Audio"]) :=
  ⟨trivial, queryRecentActivity_fallback "" QueryOutcome.timeout trivial⟩

/-- Claim C10: in the GET screen-activity success envelope, the `source`
field equals "mock" exactly when the returned activity list has length
at most 2, and equals "live" exactly when it has 3 or more items. -/
theorem screenActivityGET_source_mock_iff
    (activityData : List ScreenActivityItem) :
    ((screenActivityGET activityData).source = "mock" ↔
      activityData.length ≤ 2) ∧
    ((screenActivityGET activityData).source = "live" ↔
      3 ≤ activityData.length) := by
  by_cases hl : activityData.length ≤ 2 <;>
    constructor <;> simp [screenActivityGET, hl] <;> omega

/-- Claim C3: an input item whose extracted primary text, after
lowercasing and trimming, is shorter than 10 characters is absent from
the deduplicator output, regardless of the rest of the input. -/
theorem deduplicateScreenData_drops_short (xs : List ScreenActivityItem)
    (item : ScreenActivityItem) (h : (normalizedText item).length < 10) :
    item ∉ deduplicateScreenData xs := by
  intro hmem
  have hlen := deduplicateScreenDataAux_ge_ten xs [] item hmem
  omega

/-- A sample OCR capture whose text normalizes to fewer than 10
characters. -/
def shortOcrItem : ScreenActivityItem :=
  { type := "OCR",
    content :=
      { text := some "Hi", timestamp := "", app_name := none,
        window_name := none, transcription := none, speaker_id := none } }

theorem deduplicateScreenData_drops_short_witness :
    (normalizedText shortOcrItem).length < 10 ∧
    shortOcrItem ∉ deduplicateScreenData [shortOcrItem] :=
  ⟨by decide,
   deduplicateScreenData_drops_short [shortOcrItem] shortOcrItem (by decide)⟩

/-- Claim C5: with the API configured and every attempt failing at the
network level, `sendToNebiusAI` performs exactly 3 retries with backoff
delays of 1000 ms, 2000 ms and 4000 ms before the first, second and
third retry, the fallback metadata records 3 retry attempts and a mock
source, and `generateInsightsFromActivity` then returns the canned
string for the requested category instead of a live answer. -/
theorem sendToNebiusAI_network_retries (env : Nat → ApiAttemptResult)
    (henv : ∀ i, env i = ApiAttemptResult.networkError)
    (saveSucceeds : Bool) (activityData : List ScreenActivityItem)
    (insightType cannedText : String)
    (hcat : MOCK_INSIGHTS_lookup insightType = some cannedText) :
    (sendToNebiusAI true env).2 = [1000, 2000, 4000] ∧
    (sendToNebiusAI true env).1.metaRetryAttempts = some 3 ∧
    (sendToNebiusAI true env).1.metaSource = some "mock" ∧
    (generateInsightsFromActivity true env saveSucceeds activityData
      insightType).1 = cannedText := by
  have henv' : env = fun _ => ApiAttemptResult.networkError := funext henv
  subst henv'
  have hsend : (sendToNebiusAI true
      (fun _ => ApiAttemptResult.networkError)).1 =
      { result := mockRecommendationInsight, metaSource := some "mock",
        metaErrorType := some "network_error",
        metaRetryAttempts := some 3, metaReason := none } := rfl
  refine ⟨rfl, rfl, rfl, ?_⟩
  simp [generateInsightsFromActivity, hsend, hcat]

theorem sendToNebiusAI_network_retries_witness :
    (∀ i, (fun _ : Nat => ApiAttemptResult.networkError) i =
      ApiAttemptResult.networkError) ∧
    MOCK_INSIGHTS_lookup "productivity" = some mockProductivityInsight ∧
    ((sendToNebiusAI true (fun _ => ApiAttemptResult.networkError)).2 =
        [1000, 2000, 4000] ∧
      (sendToNebiusAI true
        (fun _ => ApiAttemptResult.networkError)).1.metaRetryAttempts =
        some 3 ∧
      (sendToNebiusAI true
        (fun _ => ApiAttemptResult.networkError)).1.metaSource =
        some "mock" ∧
      (generateInsightsFromActivity true
        (fun _ => ApiAttemptResult.networkError) true [] "productivity").1 =
        mockProductivityInsight) :=
  ⟨fun _ => rfl, rfl,
   sendToNebiusAI_network_retries (fun _ => ApiAttemptResult.networkError)
     (fun _ => rfl) true [] "productivity" mockProductivityInsight rfl⟩

theorem attemptRequest_succ_httpError (env : Nat → ApiAttemptResult)
    (retryCount remaining status : Nat)
    (h : env retryCount = ApiAttemptResult.httpError status) :
    attemptRequest env retryCount (remaining + 1) =
      attemptResponseNoRetry retryCount (httpErrorType status) := by
  unfold attemptRequest
  rw [h]

/-- Claim C6: when the first attempt receives an HTTP response with
status 401, no retry is performed (no backoff delay is slept) and the
canned fallback is returned immediately, with zero recorded retry
attempts and the authentication error type. -/
theorem sendToNebiusAI_http401_no_retry (env : Nat → ApiAttemptResult)
    (h : env 0 = ApiAttemptResult.httpError 401) :
    (sendToNebiusAI true env).2 = [] ∧
    (sendToNebiusAI true env).1 =
      { result := mockRecommendationInsight, metaSource := some "mock",
        metaErrorType := some "authentication_error",
        metaRetryAttempts := some 0, metaReason := none } := by
  have hstep : attemptRequest env 0 3 =
      attemptResponseNoRetry 0 (httpErrorType 401) :=
    attemptRequest_succ_httpError env 0 2 401 h
  constructor
  · show (attemptRequest env 0 3).2 = []
    rw [hstep]
    rfl
  · show (attemptRequest env 0 3).1 = _
    rw [hstep]
    rfl

theorem sendToNebiusAI_http401_no_retry_witness :
    (fun _ : Nat => ApiAttemptResult.httpError 401) 0 =
      ApiAttemptResult.httpError 401 ∧
    ((sendToNebiusAI true (fun _ => ApiAttemptResult.httpError 401)).2 = [] ∧
      (sendToNebiusAI true (fun _ => ApiAttemptResult.httpError 401)).1 =
        { result := mockRecommendationInsight, metaSource := some "mock",
          metaErrorType := some "authentication_error",
          metaRetryAttempts := some 0, metaReason := none }) :=
  ⟨rfl, sendToNebiusAI_http401_no_retry
    (fun _ => ApiAttemptResult.httpError 401) rfl⟩

section RateLimitLemmas

/-- The accept/reject pattern of `n` further in-window requests arriving
when the stored count is `c`. -/
def acceptPattern (c : Nat) : Nat → List Bool
  | 0 => []
  | n + 1 =>
    decide (c + 1 ≤ RATE_LIMIT_maxRequests) :: acceptPattern (c + 1) n

theorem runRateLimit_in_window (ip : String) :
    ∀ (ts : List Nat) (m : String → Option RateEntry) (c r : Nat),
      m ip = some ⟨c, r⟩ → (∀ t ∈ ts, t ≤ r) →
      (runRateLimit m ip ts).1 = acceptPattern c ts.length ∧
      (runRateLimit m ip ts).2 ip = some ⟨c + ts.length, r⟩ := by
  intro ts
  induction ts with
  | nil =>
    intro m c r hm hts
    refine ⟨rfl, ?_⟩
    simpa [runRateLimit] using hm
  | cons t ts ih =>
    intro m c r hm hts
    have ht : ¬ t > r := by
      have := hts t (List.mem_cons_self t ts)
      omega
    have hstep : checkRateLimit m ip t =
        (decide (c + 1 ≤ RATE_LIMIT_maxRequests),
         fun k => if k = ip then some ⟨c + 1, r⟩ else m k) := by
      simp only [checkRateLimit, hm]
      rw [if_neg ht]
      by_cases hc : c + 1 > RATE_LIMIT_maxRequests
      · rw [if_pos hc]
        have hd : decide (c + 1 ≤ RATE_LIMIT_maxRequests) = false :=
          decide_eq_false (by omega)
        rw [hd]
      · rw [if_neg hc]
        have hd : decide (c + 1 ≤ RATE_LIMIT_maxRequests) = true :=
          decide_eq_true (by omega)
        rw [hd]
    have hm' : (checkRateLimit m ip t).2 ip = some ⟨c + 1, r⟩ := by
      rw [hstep]; simp
    obtain ⟨ih1, ih2⟩ := ih ((checkRateLimit m ip t).2) (c + 1) r hm'
      (fun u hu => hts u (List.mem_cons_of_mem _ hu))
    have h1 : (checkRateLimit m ip t).1 =
        decide (c + 1 ≤ RATE_LIMIT_maxRequests) := by rw [hstep]
    refine ⟨?_, ?_⟩
    · simp only [runRateLimit, List.length_cons, acceptPattern]
      rw [h1, ih1]
    · simp only [runRateLimit]
      rw [ih2]
      have harith : c + 1 + ts.length = c + (ts.length + 1) := by omega
      rw [harith]
      rfl

end RateLimitLemmas

/-- Claim C7: starting from an empty map, 11 requests from the same
client address whose clocks all lie within the 60-second window opened
by the first request produce 10 accepts followed by a reject; the first
request arriving strictly after the window boundary is accepted and
starts a fresh window whose stored count is 1. -/
theorem checkRateLimit_window_behavior (ip : String) (t0 t' : Nat)
    (ts : List Nat) (hlen : ts.length = 10)
    (hts : ∀ t ∈ ts, t ≤ t0 + 60000) (ht' : t0 + 60000 < t') :
    (runRateLimit (fun _ => none) ip (t0 :: ts)).1 =
      List.replicate 10 true ++ [false] ∧
    (checkRateLimit ((runRateLimit (fun _ => none) ip (t0 :: ts)).2)
      ip t').1 = true ∧
    (checkRateLimit ((runRateLimit (fun _ => none) ip (t0 :: ts)).2)
      ip t').2 ip = some ⟨1, t' + 60000⟩ := by
  have hstep0 : checkRateLimit (fun _ => none) ip t0 =
      (true, fun k => if k = ip then some ⟨1, t0 + 60000⟩ else none) := by
    simp [checkRateLimit, RATE_LIMIT_windowMs]
  have hm1 : (checkRateLimit (fun _ => none) ip t0).2 ip =
      some ⟨1, t0 + 60000⟩ := by
    rw [hstep0]; simp
  obtain ⟨h1, h2⟩ := runRateLimit_in_window ip ts
    ((checkRateLimit (fun _ => none) ip t0).2) 1 (t0 + 60000) hm1 hts
  have hfst : (runRateLimit (fun _ => none) ip (t0 :: ts)).1 =
      (checkRateLimit (fun _ => none) ip t0).1 ::
        (runRateLimit ((checkRateLimit (fun _ => none) ip t0).2) ip ts).1 := by
    simp only [runRateLimit]
  have hsnd : (runRateLimit (fun _ => none) ip (t0 :: ts)).2 =
      (runRateLimit ((checkRateLimit (fun _ => none) ip t0).2) ip ts).2 := by
    simp only [runRateLimit]
  have hfinal : (runRateLimit (fun _ => none) ip (t0 :: ts)).2 ip =
      some ⟨11, t0 + 60000⟩ := by
    rw [hsnd, h2, hlen]
  refine ⟨?_, ?_, ?_⟩
  · rw [hfst, h1, hlen]
    have hb : (checkRateLimit (fun _ => none) ip t0).1 = true := by
      rw [hstep0]
    rw [hb]
    decide
  · simp only [checkRateLimit, hfinal]
    rw [if_pos ht']
  · simp only [checkRateLimit, hfinal]
    rw [if_pos ht']
    simp [RATE_LIMIT_windowMs]

theorem checkRateLimit_window_behavior_witness :
    (List.replicate 10 (0 : Nat)).length = 10 ∧
    (∀ t ∈ List.replicate 10 (0 : Nat), t ≤ 0 + 60000) ∧
    0 + 60000 < 60001 ∧
    ((runRateLimit (fun _ => none) "client" (0 :: List.replicate 10 0)).1 =
      List.replicate 10 true ++ [false] ∧
     (checkRateLimit
        ((runRateLimit (fun _ => none) "client"
          (0 :: List.replicate 10 0)).2) "client" 60001).1 = true ∧
     (checkRateLimit
        ((runRateLimit (fun _ => none) "client"
          (0 :: List.replicate 10 0)).2) "client" 60001).2 "client" =
       some ⟨1, 60001 + 60000⟩) :=
  ⟨by decide, by decide, by decide,
   checkRateLimit_window_behavior "client" 0 60001 (List.replicate 10 0)
     (by decide) (by decide) (by decide)⟩

/-- Claim C8: a `getInsights` call with status "new", category
"productivity" and limit 5 whose database query matches nothing returns
exactly the canned productivity sample record (status "new",
productivity text, id `mock-0`), so the result length is at most 5. -/
theorem getInsights_empty_store_productivity (store : List InsightRecord)
    (now : String) (randPriority : Nat → Nat)
    (hempty :
      dbInsightsQuery store (some "new") (some "productivity") 5 0 = []) :
    getInsights store (some "new") (some "productivity") 5 0 now
      randPriority =
      [{ idStr := "mock-0", insight := mockProductivityInsight,
         insightType := "productivity", status := "new",
         priority := randPriority 0, createdAt := now,
         metaSource := some "mock" }] ∧
    (getInsights store (some "new") (some "productivity") 5 0 now
      randPriority).length ≤ 5 := by
  have hmain : getInsights store (some "new") (some "productivity") 5 0 now
      randPriority =
      [{ idStr := "mock-0", insight := mockProductivityInsight,
         insightType := "productivity", status := "new",
         priority := randPriority 0, createdAt := now,
         metaSource := some "mock" }] := by
    unfold getInsights
    rw [hempty]
    rfl
  exact ⟨hmain, by rw [hmain]; simp⟩

theorem getInsights_empty_store_productivity_witness :
    dbInsightsQuery [] (some "new") (some "productivity") 5 0 = [] ∧
    (getInsights [] (some "new") (some "productivity") 5 0 ""
        (fun _ => 0) =
      [{ idStr := "mock-0", insight := mockProductivityInsight,
         insightType := "productivity", status := "new",
         priority := 0, createdAt := "",
         metaSource := some "mock" }] ∧
     (getInsights [] (some "new") (some "productivity") 5 0 ""
        (fun _ => 0)).length ≤ 5) :=
  ⟨rfl, getInsights_empty_store_productivity [] "" (fun _ => 0) rfl⟩

/-- Claim C9: whatever the outcome of the request, the document that
`generateInsightsFromActivity` persists is a new record with status
"new" and priority 0 carrying the returned insight text; and when the
persistence step fails the error is swallowed and the same insight text
is still returned, so the overall operation never fails because of a
save error. -/
theorem generateInsights_persists_new_priority0 (hasConfig : Bool)
    (env : Nat → ApiAttemptResult)
    (activityData : List ScreenActivityItem) (insightType : String)
    (rec : AIInsight)
    (hsaved : (generateInsightsFromActivity hasConfig env true activityData
      insightType).2 = some rec) :
    rec.status = "new" ∧ rec.priority = 0 ∧
    rec.insight = (generateInsightsFromActivity hasConfig env true
      activityData insightType).1 ∧
    (generateInsightsFromActivity hasConfig env false activityData
      insightType).1 =
      (generateInsightsFromActivity hasConfig env true activityData
        insightType).1 := by
  have h2 : (generateInsightsFromActivity hasConfig env true activityData
      insightType).2 =
      some (saveInsight
        ((generateInsightsFromActivity hasConfig env true activityData
          insightType).1) activityData insightType 0) := rfl
  rw [h2] at hsaved
  injection hsaved with h3
  rw [← h3]
  exact ⟨rfl, rfl, rfl, rfl⟩

theorem generateInsights_persists_new_priority0_witness :
    (generateInsightsFromActivity false
      (fun _ => ApiAttemptResult.networkError) true [] "productivity").2 =
      some { insight := mockProductivityInsight,
             insightType := "productivity", priority := 0,
             status := "new", activityCount := 0 } ∧
    ({ insight := mockProductivityInsight, insightType := "productivity",
       priority := 0, status := "new",
       activityCount := 0 : AIInsight }.status = "new" ∧
     ({ insight := mockProductivityInsight, insightType := "productivity",
        priority := 0, status := "new",
        activityCount := 0 : AIInsight }).priority = 0 ∧
     ({ insight := mockProductivityInsight, insightType := "productivity",
        priority := 0, status := "new",
        activityCount := 0 : AIInsight }).insight =
       (generateInsightsFromActivity false
         (fun _ => ApiAttemptResult.networkError) true [] "productivity").1 ∧
     (generateInsightsFromActivity false
       (fun _ => ApiAttemptResult.networkError) false [] "productivity").1 =
       (generateInsightsFromActivity false
         (fun _ => ApiAttemptResult.networkError) true [] "productivity").1) :=
  ⟨rfl, generateInsights_persists_new_priority0 false
    (fun _ => ApiAttemptResult.networkError) [] "productivity"
    { insight := mockProductivityInsight, insightType := "productivity",
      priority := 0, status := "new", activityCount := 0 } rfl⟩
